import Mathlib

/-!
Shallow embedding of the order-processing system (Go sources):

* `pkg/inventory/service.go` — the Resource Ledger (`ReserveStock`,
  `ReleaseStock`, `GetProductStock`), a `map[string]*Product` guarded by a
  mutex; stock quantities are Go `int32`, so arithmetic wraps two's-complement.
* `pkg/order/service.go` — the Order Orchestrator (`CreateOrder`, `GetOrder`,
  `UpdateOrderStatus`, `releaseStockForOrder`), a `map[string]*Order`.
* the payment stub (`ProcessPayment`) — a coin decides SUCCESS/FAILED; the
  function always returns a response and a nil error.

Maps are embedded as association lists keyed by id, Go `int32` as `Int` with an
explicit two's-complement wrap applied exactly where the Go code performs
`+=`/`-=`, `float64` amounts as `ℚ`, and `time.Now()` as a `Nat` parameter.
The orchestrator is composed in-process with the real inventory service
(transport to the ledger cannot fail in the embedding); the payment client is
a parameter, since the stub is the sole source of nondeterminism and the
orchestrator handles both its error channel and its FAILED status.
-/

namespace OrderProcessing

/-- Two's-complement wrap of Go `int32` arithmetic: the value of an `Int`
reduced into `[-2^31, 2^31)` modulo `2^32`. -/
def wrap32 (x : Int) : Int :=
  (x + 2147483648) % 4294967296 - 2147483648

/-- `Product` from the inventory protobuf: id, name, stock quantity
(`int32`, embedded as `Int`), unit price (`float64`, embedded as `ℚ`). -/
structure Product where
  id : String
  name : String
  stockQuantity : Int
  price : ℚ
deriving DecidableEq, Repr

/-- The inventory service's `map[string]*Product`, as an association list. -/
abbrev Inventory := List (String × Product)

/-- Map lookup `s.products[productID]`. -/
def findProduct : Inventory → String → Option Product
  | [], _ => none
  | (k, p) :: rest, pid => if k = pid then some p else findProduct rest pid

/-- Write `product.StockQuantity = v` through the pointer stored in the map:
the first entry with the given key has its stock replaced; absent keys leave
the map unchanged. -/
def setStock : Inventory → String → Int → Inventory
  | [], _, _ => []
  | (k, p) :: rest, pid, v =>
    if k = pid then (k, { p with stockQuantity := v }) :: rest
    else (k, p) :: setStock rest pid v

/-- The available quantity of a product, when present. -/
def stockOf (inv : Inventory) (pid : String) : Option Int :=
  (findProduct inv pid).map Product.stockQuantity

/-- The available quantity of a product, defaulting to `0` when absent
(a proof-side convenience, not a source function). -/
def stockD (inv : Inventory) (pid : String) : Int :=
  (stockOf inv pid).getD 0

/-- The messages the inventory service formats with `fmt.Sprintf`; each
constructor stands for one format string together with its arguments. -/
inductive Message where
  /-- `"Product not found: %s"` -/
  | productNotFound (productId : String)
  /-- `"Insufficient stock. Available: %d, Requested: %d"` -/
  | insufficientStock (available requested : Int)
  /-- `"Stock reserved successfully"` -/
  | stockReserved
  /-- `"Stock released successfully"` -/
  | stockReleased
deriving DecidableEq, Repr

/-- `ReserveStockResponse` from the inventory protobuf. -/
structure ReserveStockResponse where
  success : Bool
  message : Message
  reservedQuantity : Int
deriving DecidableEq, Repr

/-- `ReleaseStockResponse` from the inventory protobuf. -/
structure ReleaseStockResponse where
  success : Bool
  message : Message
deriving DecidableEq, Repr

/-- `ReserveStock` of `pkg/inventory/service.go`: look the product up; absent
products and insufficient stock are reported with `Success: false` (the Go
function always returns a nil error); otherwise `StockQuantity -= quantity`
(an `int32` subtraction, hence wrapped) and `Success: true` with
`ReservedQuantity: quantity`. -/
def reserveStock (inv : Inventory) (productID : String) (quantity : Int)
    (_orderID : String) : Inventory × ReserveStockResponse :=
  match findProduct inv productID with
  | none =>
    (inv, { success := false, message := .productNotFound productID,
            reservedQuantity := 0 })
  | some p =>
    if p.stockQuantity < quantity then
      (inv, { success := false,
              message := .insufficientStock p.stockQuantity quantity,
              reservedQuantity := 0 })
    else
      (setStock inv productID (wrap32 (p.stockQuantity - quantity)),
       { success := true, message := .stockReserved,
         reservedQuantity := quantity })

/-- `ReleaseStock` of `pkg/inventory/service.go`: absent products are reported
with `Success: false`; otherwise `StockQuantity += quantity` (an `int32`
addition, hence wrapped) unconditionally and `Success: true`. -/
def releaseStock (inv : Inventory) (productID : String) (quantity : Int)
    (_orderID : String) : Inventory × ReleaseStockResponse :=
  match findProduct inv productID with
  | none =>
    (inv, { success := false, message := .productNotFound productID })
  | some p =>
    (setStock inv productID (wrap32 (p.stockQuantity + quantity)),
     { success := true, message := .stockReleased })

/-- The sample products `NewService` of the inventory service starts with. -/
def initialProducts : Inventory :=
  [("product-1", { id := "product-1", name := "Laptop",
                   stockQuantity := 50, price := mkRat 99999 100 }),
   ("product-2", { id := "product-2", name := "Mouse",
                   stockQuantity := 100, price := mkRat 2999 100 }),
   ("product-3", { id := "product-3", name := "Keyboard",
                   stockQuantity := 75, price := mkRat 7999 100 })]

/-- `OrderStatus` from the order protobuf. -/
inductive OrderStatus where
  | unspecified
  | pending
  | processing
  | completed
  | cancelled
deriving DecidableEq, Repr

/-- `OrderItem` from the order protobuf: product id, quantity (`int32`),
unit price (`float64`, embedded as `ℚ`). -/
structure OrderItem where
  productId : String
  quantity : Int
  unitPrice : ℚ
deriving DecidableEq, Repr

/-- `Order` from the order protobuf; the two `time.Now()` timestamps are
embedded as `Nat` clock readings. -/
structure Order where
  id : String
  customerId : String
  items : List OrderItem
  totalAmount : ℚ
  status : OrderStatus
  createdAt : Nat
  updatedAt : Nat
deriving DecidableEq, Repr

/-- The order service's `map[string]*Order`, as an association list. -/
abbrev OrderTable := List (String × Order)

/-- Map lookup `s.orders[orderID]`. -/
def findOrder : OrderTable → String → Option Order
  | [], _ => none
  | (k, o) :: rest, oid => if k = oid then some o else findOrder rest oid

/-- Map assignment `s.orders[orderID] = order`: overwrite the first entry with
the given key, or append a fresh entry. -/
def storeOrder : OrderTable → String → Order → OrderTable
  | [], oid, o => [(oid, o)]
  | (k, v) :: rest, oid, o =>
    if k = oid then (k, o) :: rest else (k, v) :: storeOrder rest oid o

/-- `PaymentStatus` from the payment protobuf. -/
inductive PaymentStatus where
  | unspecified
  | success
  | failed
deriving DecidableEq, Repr

/-- `PaymentRequest` from the payment protobuf. -/
structure PaymentRequest where
  orderId : String
  customerId : String
  amount : ℚ
  currency : String
  paymentMethod : String
deriving DecidableEq, Repr

/-- `PaymentResponse` from the payment protobuf. -/
structure PaymentResponse where
  paymentId : String
  status : PaymentStatus
  message : String
  transactionId : String
deriving DecidableEq, Repr

/-- `ProcessPayment` of the payment stub: `coin` models the draw
`s.rand.Float32() < 0.9`, and the generated `uuid`/`txn_<unix-time>`
identifiers are parameters. Both branches return a response through the
`.ok` channel — the Go function always returns a nil error. (The randomized
`time.Sleep` delay has no effect on the returned value and is not modelled.) -/
def processPayment (coin : Bool) (paymentID transactionID : String)
    (_req : PaymentRequest) : Except String PaymentResponse :=
  if coin then
    .ok { paymentId := paymentID, status := .success,
          message := "Payment processed successfully",
          transactionId := transactionID }
  else
    .ok { paymentId := paymentID, status := .failed,
          message := "Payment declined by bank",
          transactionId := transactionID }

/-- The errors `CreateOrder`/`GetOrder`/`UpdateOrderStatus` build with
`fmt.Errorf`; each constructor stands for one format string. -/
inductive OrderError where
  /-- `"insufficient stock for product %s: %s"` (also covers the
  `"failed to reserve stock for product %s: %w"` transport case, which the
  in-process composition cannot produce) -/
  | reserveFailed (productId : String) (msg : Message)
  /-- `"payment processing failed: %w"` -/
  | paymentProcessingFailed (err : String)
  /-- `"payment failed: %s"` -/
  | paymentFailed (msg : String)
  /-- `"order not found: %s"` -/
  | orderNotFound (orderId : String)
deriving DecidableEq, Repr

/-- The reservation loop of `CreateOrder` (`service.go` lines 68–85): reserve
each line item in the supplied order against the in-process inventory
service, stopping at the first response with `Success: false`; the failing
item's product id and message are returned so the caller can build the
`"insufficient stock for product %s: %s"` error. No stock is released on the
failure path — the loop just returns. -/
def reserveItems (orderID : String) :
    Inventory → List OrderItem → Inventory × Option (String × Message)
  | inv, [] => (inv, none)
  | inv, item :: rest =>
    let r := reserveStock inv item.productId item.quantity orderID
    if r.2.success then reserveItems orderID r.1 rest
    else (r.1, some (item.productId, r.2.message))

/-- `releaseStockForOrder` of `pkg/order/service.go`: release every line item
of the order; a failed release is logged and ignored (the loop continues). -/
def releaseStockForOrder (orderID : String) :
    Inventory → List OrderItem → Inventory
  | inv, [] => inv
  | inv, item :: rest =>
    releaseStockForOrder orderID
      (releaseStock inv item.productId item.quantity orderID).1 rest

/-- The total-amount loop of `CreateOrder`:
`totalAmount += item.UnitPrice * float64(item.Quantity)`. -/
def orderTotal (items : List OrderItem) : ℚ :=
  items.foldl (fun acc item => acc + item.unitPrice * (item.quantity : ℚ)) 0

/-- The three pieces of state a `CreateOrder` call returns or leaves behind:
the inventory service's map, the order service's map, and the
`(*orderpb.Order, error)` result. -/
structure CreateOrderResult where
  inv : Inventory
  orders : OrderTable
  result : Except OrderError Order
deriving Repr

/-- `CreateOrder` of `pkg/order/service.go`, composed in-process with the
inventory service. `orderID` stands for the generated `uuid`, `tCreate` and
`tUpdate` for the `time.Now()` readings at construction and at the
status-update before persisting. The payment client is a parameter; it is
called with the request the code builds (`"USD"`, `"credit_card"`).

Control flow, as in the source: compute the total; build the PENDING order;
reserve each item, aborting with an error on the first failure (nothing is
released on this path and the order is not stored); call the payment client
once, releasing all items and returning an error if it fails or returns a
status other than SUCCESS; otherwise set the status to PROCESSING, refresh
`UpdatedAt`, store the order and return it. -/
def createOrder (inv : Inventory) (orders : OrderTable)
    (orderID customerID : String) (items : List OrderItem)
    (paymentClient : PaymentRequest → Except String PaymentResponse)
    (tCreate tUpdate : Nat) : CreateOrderResult :=
  let totalAmount := orderTotal items
  let order : Order :=
    { id := orderID, customerId := customerID, items := items,
      totalAmount := totalAmount, status := .pending,
      createdAt := tCreate, updatedAt := tCreate }
  match reserveItems orderID inv items with
  | (inv1, some (pid, msg)) =>
    { inv := inv1, orders := orders, result := .error (.reserveFailed pid msg) }
  | (inv1, none) =>
    match paymentClient { orderId := orderID, customerId := customerID,
                          amount := totalAmount, currency := "USD",
                          paymentMethod := "credit_card" } with
    | .error e =>
      { inv := releaseStockForOrder orderID inv1 items, orders := orders,
        result := .error (.paymentProcessingFailed e) }
    | .ok resp =>
      if resp.status ≠ PaymentStatus.success then
        { inv := releaseStockForOrder orderID inv1 items, orders := orders,
          result := .error (.paymentFailed resp.message) }
      else
        let order2 := { order with status := .processing, updatedAt := tUpdate }
        { inv := inv1, orders := storeOrder orders orderID order2,
          result := .ok order2 }

/-- `GetOrder` of `pkg/order/service.go`: pure lookup. -/
def getOrder (orders : OrderTable) (orderID : String) :
    Except OrderError Order :=
  match findOrder orders orderID with
  | none => .error (.orderNotFound orderID)
  | some o => .ok o

/-- `UpdateOrderStatus` of `pkg/order/service.go`: look the order up; absent
ids get a not-found error and the table is unchanged; otherwise the status is
overwritten unconditionally and `UpdatedAt` refreshed (the code mutates the
order through the pointer stored in the map). -/
def updateOrderStatus (orders : OrderTable) (orderID : String)
    (status : OrderStatus) (now : Nat) :
    OrderTable × Except OrderError Order :=
  match findOrder orders orderID with
  | none => (orders, .error (.orderNotFound orderID))
  | some o =>
    let o2 := { o with status := status, updatedAt := now }
    (storeOrder orders orderID o2, .ok o2)

/-- Decidable equality for values carried on an error channel (a proof-side
convenience for evaluating concrete results). -/
instance {e a : Type} [DecidableEq e] [DecidableEq a] :
    DecidableEq (Except e a) := fun x y =>
  match x, y with
  | .ok u, .ok v =>
    if h : u = v then isTrue (h ▸ rfl)
    else isFalse fun hc => h (Except.ok.inj hc)
  | .error u, .error v =>
    if h : u = v then isTrue (h ▸ rfl)
    else isFalse fun hc => h (Except.error.inj hc)
  | .ok _, .error _ => isFalse fun hc => Except.noConfusion hc
  | .error _, .ok _ => isFalse fun hc => Except.noConfusion hc

/-- Scenario D's one-item order: two laptops at 999.99. -/
def sampleItems : List OrderItem :=
  [{ productId := "product-1", quantity := 2, unitPrice := mkRat 99999 100 }]

/-- Scenario C's two-item order: two laptops and one mouse. -/
def sampleItemsTwo : List OrderItem :=
  [{ productId := "product-1", quantity := 2, unitPrice := mkRat 99999 100 },
   { productId := "product-2", quantity := 1, unitPrice := mkRat 2999 100 }]

/-- A payment client mocked to always succeed (Scenario D). -/
def paySuccess : PaymentRequest → Except String PaymentResponse :=
  fun _ => .ok { paymentId := "pay-1", status := .success,
                 message := "Payment processed successfully",
                 transactionId := "txn-1" }

/-- A payment client mocked to always decline (Scenario C). -/
def payDeclined : PaymentRequest → Except String PaymentResponse :=
  fun _ => .ok { paymentId := "pay-1", status := .failed,
                 message := "Payment declined by bank",
                 transactionId := "txn-1" }

/-- One inbound request to the Resource Ledger, for stating trace
invariants over sequences of `ReserveStock`/`ReleaseStock` calls. -/
inductive InvOp where
  | reserve (productId : String) (quantity : Int) (orderId : String)
  | release (productId : String) (quantity : Int) (orderId : String)
deriving DecidableEq, Repr

/-- The state left by one ledger request. -/
def applyInvOp (inv : Inventory) : InvOp → Inventory
  | .reserve pid q oid => (reserveStock inv pid q oid).1
  | .release pid q oid => (releaseStock inv pid q oid).1

/-- The state left by a sequence of ledger requests. -/
def runInvOps (inv : Inventory) (ops : List InvOp) : Inventory :=
  ops.foldl applyInvOp inv

/-- The quantity argument of a ledger request. -/
def opQuantity : InvOp → Int
  | .reserve _ q _ => q
  | .release _ q _ => q

/-- The interface contract on quantities: a positive `int32`. -/
def posInt32 (op : InvOp) : Bool :=
  decide (0 < opQuantity op) && decide (opQuantity op < 2147483648)

/-- Every product in the map has a non-negative quantity. -/
abbrev stocksNonneg (inv : Inventory) : Prop :=
  ∀ e ∈ inv, 0 ≤ e.2.stockQuantity

/-- Every product in the map has a quantity in the `int32` range. -/
abbrev stocksInRange (inv : Inventory) : Prop :=
  ∀ e ∈ inv, -2147483648 ≤ e.2.stockQuantity ∧ e.2.stockQuantity < 2147483648

/-- A release does not overflow the `int32` stock counter in the state it is
applied to (reservations cannot overflow: they only subtract from a stock
that bounds the quantity). -/
def stepNoOverflow (inv : Inventory) : InvOp → Bool
  | .reserve _ _ _ => true
  | .release pid q _ =>
    match findProduct inv pid with
    | none => true
    | some p => decide (p.stockQuantity + q ≤ 2147483647)

/-- No release along the run overflows the `int32` stock counter. -/
def runNoOverflow : Inventory → List InvOp → Bool
  | _, [] => true
  | inv, op :: ops => stepNoOverflow inv op && runNoOverflow (applyInvOp inv op) ops

/-- The total quantity a list of line items requests for one product
(a proof-side accounting device, not a source function). -/
def sumQ (pid : String) : List OrderItem → Int
  | [] => 0
  | item :: rest => (if item.productId = pid then item.quantity else 0) + sumQ pid rest

/-- Modelled from the spec: `totalAmount` derived as `Σ(quantity × unitPrice)`
over the line items — the spec-side sum, to be compared with the code's
accumulation loop `orderTotal`. -/
def specTotal (items : List OrderItem) : ℚ :=
  (items.map (fun item => (item.quantity : ℚ) * item.unitPrice)).sum

/-! ### Arithmetic facts about the `int32` wrap -/

theorem wrap32_emod (x : Int) : wrap32 x % 4294967296 = x % 4294967296 := by
  unfold wrap32; omega

theorem wrap32_eq_self {x : Int} (h1 : -2147483648 ≤ x) (h2 : x < 2147483648) :
    wrap32 x = x := by
  unfold wrap32; omega

theorem wrap32_range (x : Int) :
    -2147483648 ≤ wrap32 x ∧ wrap32 x < 2147483648 := by
  unfold wrap32; omega

theorem wrap32_modEq (x : Int) : Int.ModEq 4294967296 (wrap32 x) x :=
  wrap32_emod x

theorem int32_eq_of_modEq {a b : Int} (h : Int.ModEq 4294967296 a b)
    (ha1 : -2147483648 ≤ a) (ha2 : a < 2147483648)
    (hb1 : -2147483648 ≤ b) (hb2 : b < 2147483648) : a = b := by
  have h' : a % 4294967296 = b % 4294967296 := h
  omega

/-! ### Facts about the product map -/

theorem findProduct_mem {inv : Inventory} {pid : String} {p : Product}
    (h : findProduct inv pid = some p) : (pid, p) ∈ inv := by
  induction inv with
  | nil => simp [findProduct] at h
  | cons e rest ih =>
    obtain ⟨k, q⟩ := e
    by_cases hk : k = pid
    · subst hk
      simp [findProduct] at h
      subst h
      exact List.mem_cons_self _ _
    · simp [findProduct, hk] at h
      exact List.mem_cons_of_mem _ (ih h)

theorem setStock_of_not_found {inv : Inventory} {pid : String} {v : Int}
    (h : findProduct inv pid = none) : setStock inv pid v = inv := by
  induction inv with
  | nil => rfl
  | cons e rest ih =>
    obtain ⟨k, q⟩ := e
    by_cases hk : k = pid
    · simp [findProduct, hk] at h
    · simp [findProduct, hk] at h
      simp [setStock, hk, ih h]

theorem findProduct_setStock_self {inv : Inventory} {pid : String} {v : Int}
    {p : Product} (h : findProduct inv pid = some p) :
    findProduct (setStock inv pid v) pid = some { p with stockQuantity := v } := by
  induction inv with
  | nil => simp [findProduct] at h
  | cons e rest ih =>
    obtain ⟨k, q⟩ := e
    by_cases hk : k = pid
    · subst hk
      simp [findProduct] at h
      subst h
      simp [setStock, findProduct]
    · simp [findProduct, hk] at h
      simp [setStock, findProduct, hk, ih h]

theorem findProduct_setStock_ne {inv : Inventory} {pid pid' : String} {v : Int}
    (h : pid' ≠ pid) :
    findProduct (setStock inv pid v) pid' = findProduct inv pid' := by
  induction inv with
  | nil => rfl
  | cons e rest ih =>
    obtain ⟨k, q⟩ := e
    by_cases hk : k = pid
    · subst hk
      simp [setStock, findProduct, Ne.symm h]
    · simp [setStock, findProduct, hk]
      split <;> simp [ih]

theorem findProduct_setStock_isSome (inv : Inventory) (pid pid' : String)
    (v : Int) :
    (findProduct (setStock inv pid v) pid').isSome
      = (findProduct inv pid').isSome := by
  by_cases hp : pid' = pid
  · subst hp
    cases h : findProduct inv pid' with
    | none => rw [setStock_of_not_found h, h]
    | some p => simp [findProduct_setStock_self h, h]
  · rw [findProduct_setStock_ne hp]

theorem mem_setStock {inv : Inventory} {pid : String} {v : Int}
    {e : String × Product} (h : e ∈ setStock inv pid v) :
    e ∈ inv ∨ e.2.stockQuantity = v := by
  induction inv with
  | nil => simp [setStock] at h
  | cons f rest ih =>
    obtain ⟨k, q⟩ := f
    by_cases hk : k = pid
    · simp [setStock, hk] at h
      rcases h with h | h
      · right; rw [h]
      · exact Or.inl (List.mem_cons_of_mem _ h)
    · simp [setStock, hk] at h
      rcases h with h | h
      · exact Or.inl (by simp [h])
      · rcases ih h with h' | h'
        · exact Or.inl (List.mem_cons_of_mem _ h')
        · exact Or.inr h'

theorem stockD_of_found {inv : Inventory} {pid : String} {p : Product}
    (h : findProduct inv pid = some p) : stockD inv pid = p.stockQuantity := by
  simp [stockD, stockOf, h]

theorem stockD_setStock_self {inv : Inventory} {pid : String} {v : Int}
    {p : Product} (h : findProduct inv pid = some p) :
    stockD (setStock inv pid v) pid = v := by
  simp [stockD, stockOf, findProduct_setStock_self h]

theorem stockD_setStock_ne {inv : Inventory} {pid pid' : String} {v : Int}
    (h : pid' ≠ pid) :
    stockD (setStock inv pid v) pid' = stockD inv pid' := by
  simp [stockD, stockOf, findProduct_setStock_ne h]

/-! ### Effects of a single reserve or release -/

theorem reserveStock_success_effect {inv : Inventory} {pid : String} {q : Int}
    {oid : String} (h : (reserveStock inv pid q oid).2.success = true) :
    ∃ p, findProduct inv pid = some p ∧ q ≤ p.stockQuantity ∧
      (reserveStock inv pid q oid).1
        = setStock inv pid (wrap32 (p.stockQuantity - q)) := by
  unfold reserveStock at h ⊢
  cases hf : findProduct inv pid with
  | none => simp only [hf] at h; simp at h
  | some p =>
    simp only [hf] at h ⊢
    by_cases hq : p.stockQuantity < q
    · simp only [if_pos hq] at h; simp at h
    · simp only [if_neg hq] at h ⊢
      exact ⟨p, rfl, by omega, rfl⟩

theorem reserveStock_fail_state {inv : Inventory} {pid : String} {q : Int}
    {oid : String} (h : (reserveStock inv pid q oid).2.success = false) :
    (reserveStock inv pid q oid).1 = inv := by
  unfold reserveStock at h ⊢
  cases hf : findProduct inv pid with
  | none => simp only [hf]
  | some p =>
    simp only [hf] at h ⊢
    by_cases hq : p.stockQuantity < q
    · simp only [if_pos hq]
    · simp only [if_neg hq] at h; simp at h

theorem releaseStock_found_state {inv : Inventory} {pid : String} {q : Int}
    {oid : String} {p : Product} (h : findProduct inv pid = some p) :
    (releaseStock inv pid q oid).1
      = setStock inv pid (wrap32 (p.stockQuantity + q)) := by
  unfold releaseStock
  simp only [h]

theorem releaseStock_not_found_state {inv : Inventory} {pid : String} {q : Int}
    {oid : String} (h : findProduct inv pid = none) :
    (releaseStock inv pid q oid).1 = inv := by
  unfold releaseStock
  simp only [h]

theorem reserveStock_isSome (inv : Inventory) (pid : String) (q : Int)
    (oid pid' : String) :
    (findProduct (reserveStock inv pid q oid).1 pid').isSome
      = (findProduct inv pid').isSome := by
  cases hs : (reserveStock inv pid q oid).2.success with
  | false => rw [reserveStock_fail_state hs]
  | true =>
    obtain ⟨p, _, _, hstate⟩ := reserveStock_success_effect hs
    rw [hstate, findProduct_setStock_isSome]

theorem releaseStock_isSome (inv : Inventory) (pid : String) (q : Int)
    (oid pid' : String) :
    (findProduct (releaseStock inv pid q oid).1 pid').isSome
      = (findProduct inv pid').isSome := by
  cases hf : findProduct inv pid with
  | none => rw [releaseStock_not_found_state hf]
  | some p => rw [releaseStock_found_state hf, findProduct_setStock_isSome]

/-! ### Effects of the orchestrator's reservation and release loops -/

theorem reserveItems_isSome (oid : String) (items : List OrderItem) :
    ∀ inv pid, (findProduct (reserveItems oid inv items).1 pid).isSome
      = (findProduct inv pid).isSome := by
  induction items with
  | nil => intro inv pid; rfl
  | cons item rest ih =>
    intro inv pid
    simp only [reserveItems]
    by_cases hs : (reserveStock inv item.productId item.quantity oid).2.success
    · rw [if_pos hs, ih, reserveStock_isSome]
    · rw [if_neg hs]
      exact reserveStock_isSome inv item.productId item.quantity oid pid

theorem releaseStockForOrder_isSome (oid : String) (items : List OrderItem) :
    ∀ inv pid, (findProduct (releaseStockForOrder oid inv items) pid).isSome
      = (findProduct inv pid).isSome := by
  induction items with
  | nil => intro inv pid; rfl
  | cons item rest ih =>
    intro inv pid
    simp only [releaseStockForOrder]
    rw [ih, releaseStock_isSome]

theorem reserveItems_none_present (oid : String) (items : List OrderItem) :
    ∀ inv, (reserveItems oid inv items).2 = none →
      ∀ it ∈ items, (findProduct inv it.productId).isSome := by
  induction items with
  | nil => intro inv _ it hit; simp at hit
  | cons item rest ih =>
    intro inv h it hit
    simp only [reserveItems] at h
    by_cases hs : (reserveStock inv item.productId item.quantity oid).2.success
    · rw [if_pos hs] at h
      rcases List.mem_cons.mp hit with hit | hit
      · subst hit
        obtain ⟨p, hp, _, _⟩ := reserveStock_success_effect hs
        simp [hp]
      · have := ih _ h it hit
        rwa [reserveStock_isSome] at this
    · rw [if_neg hs] at h
      simp at h

theorem reserveItems_none_stockD (oid : String) (items : List OrderItem) :
    ∀ inv, (reserveItems oid inv items).2 = none → ∀ pid,
      Int.ModEq 4294967296 (stockD (reserveItems oid inv items).1 pid)
        (stockD inv pid - sumQ pid items) := by
  induction items with
  | nil =>
    intro inv _ pid
    simp only [reserveItems, sumQ, Int.sub_zero]
    exact Int.ModEq.refl _
  | cons item rest ih =>
    intro inv h pid
    simp only [reserveItems] at h ⊢
    by_cases hs : (reserveStock inv item.productId item.quantity oid).2.success
    · rw [if_pos hs] at h ⊢
      obtain ⟨p, hp, _, hstate⟩ := reserveStock_success_effect hs
      have hmid : Int.ModEq 4294967296
          (stockD (reserveStock inv item.productId item.quantity oid).1 pid)
          (stockD inv pid - if item.productId = pid then item.quantity else 0) := by
        rw [hstate]
        by_cases hpid : item.productId = pid
        · subst hpid
          rw [stockD_setStock_self hp, if_pos rfl, stockD_of_found hp]
          exact wrap32_modEq _
        · rw [stockD_setStock_ne (fun hne => hpid hne.symm), if_neg hpid,
              Int.sub_zero]
      have htail := ih _ h pid
      have := htail.trans (hmid.sub_right (sumQ pid rest))
      have harith : stockD inv pid - (if item.productId = pid then item.quantity else 0)
          - sumQ pid rest
          = stockD inv pid - sumQ pid (item :: rest) := by
        simp only [sumQ]; ring
      rwa [harith] at this
    · rw [if_neg hs] at h
      simp at h

theorem releaseStockForOrder_stockD (oid : String) (items : List OrderItem) :
    ∀ inv, (∀ it ∈ items, (findProduct inv it.productId).isSome) → ∀ pid,
      Int.ModEq 4294967296 (stockD (releaseStockForOrder oid inv items) pid)
        (stockD inv pid + sumQ pid items) := by
  induction items with
  | nil =>
    intro inv _ pid
    simp only [releaseStockForOrder, sumQ, Int.add_zero]
    exact Int.ModEq.refl _
  | cons item rest ih =>
    intro inv hpres pid
    simp only [releaseStockForOrder]
    have hhead : (findProduct inv item.productId).isSome :=
      hpres item (List.mem_cons_self _ _)
    obtain ⟨p, hp⟩ := Option.isSome_iff_exists.mp hhead
    have hstate :=
      @releaseStock_found_state inv item.productId item.quantity oid p hp
    have hmid : Int.ModEq 4294967296
        (stockD (releaseStock inv item.productId item.quantity oid).1 pid)
        (stockD inv pid + if item.productId = pid then item.quantity else 0) := by
      rw [hstate]
      by_cases hpid : item.productId = pid
      · subst hpid
        rw [stockD_setStock_self hp, if_pos rfl, stockD_of_found hp]
        exact wrap32_modEq _
      · rw [stockD_setStock_ne (fun hne => hpid hne.symm), if_neg hpid,
            Int.add_zero]
    have hpres' : ∀ it ∈ rest,
        (findProduct (releaseStock inv item.productId item.quantity oid).1
          it.productId).isSome := by
      intro it hit
      rw [releaseStock_isSome]
      exact hpres it (List.mem_cons_of_mem _ hit)
    have htail := ih _ hpres' pid
    have := htail.trans (hmid.add_right (sumQ pid rest))
    have harith : stockD inv pid + (if item.productId = pid then item.quantity else 0)
        + sumQ pid rest
        = stockD inv pid + sumQ pid (item :: rest) := by
      simp only [sumQ]; ring
    rwa [harith] at this

/-! ### Range preservation: every write the ledger performs is a wrapped
`int32` value, so stocks stay in the `int32` window -/

theorem stocksInRange_setStock_wrap {inv : Inventory} {pid : String} {x : Int}
    (h : stocksInRange inv) : stocksInRange (setStock inv pid (wrap32 x)) := by
  intro e he
  rcases mem_setStock he with he' | he'
  · exact h e he'
  · rw [he']; exact wrap32_range x

theorem stocksInRange_reserveStock {inv : Inventory} (pid : String) (q : Int)
    (oid : String) (h : stocksInRange inv) :
    stocksInRange (reserveStock inv pid q oid).1 := by
  cases hs : (reserveStock inv pid q oid).2.success with
  | false => rw [reserveStock_fail_state hs]; exact h
  | true =>
    obtain ⟨p, _, _, hstate⟩ := reserveStock_success_effect hs
    rw [hstate]
    exact stocksInRange_setStock_wrap h

theorem stocksInRange_releaseStock {inv : Inventory} (pid : String) (q : Int)
    (oid : String) (h : stocksInRange inv) :
    stocksInRange (releaseStock inv pid q oid).1 := by
  cases hf : findProduct inv pid with
  | none => rw [releaseStock_not_found_state hf]; exact h
  | some p =>
    rw [releaseStock_found_state hf]
    exact stocksInRange_setStock_wrap h

theorem stocksInRange_reserveItems (oid : String) (items : List OrderItem) :
    ∀ inv, stocksInRange inv → stocksInRange (reserveItems oid inv items).1 := by
  induction items with
  | nil => intro inv h; exact h
  | cons item rest ih =>
    intro inv h
    simp only [reserveItems]
    by_cases hs : (reserveStock inv item.productId item.quantity oid).2.success
    · rw [if_pos hs]
      exact ih _ (stocksInRange_reserveStock _ _ _ h)
    · rw [if_neg hs]
      exact stocksInRange_reserveStock _ _ _ h

theorem stocksInRange_releaseStockForOrder (oid : String)
    (items : List OrderItem) :
    ∀ inv, stocksInRange inv →
      stocksInRange (releaseStockForOrder oid inv items) := by
  induction items with
  | nil => intro inv h; exact h
  | cons item rest ih =>
    intro inv h
    simp only [releaseStockForOrder]
    exact ih _ (stocksInRange_releaseStock _ _ _ h)

theorem stockD_range {inv : Inventory} (h : stocksInRange inv) (pid : String) :
    -2147483648 ≤ stockD inv pid ∧ stockD inv pid < 2147483648 := by
  cases hf : findProduct inv pid with
  | none => simp [stockD, stockOf, hf]
  | some p =>
    rw [stockD_of_found hf]
    exact h (pid, p) (findProduct_mem hf)

theorem stockOf_eq_of_isSome_stockD {inv' inv : Inventory} {pid : String}
    (hs : (findProduct inv' pid).isSome = (findProduct inv pid).isSome)
    (hd : stockD inv' pid = stockD inv pid) :
    stockOf inv' pid = stockOf inv pid := by
  cases hf' : findProduct inv' pid with
  | none =>
    cases hf : findProduct inv pid with
    | none => simp [stockOf, hf, hf']
    | some p => rw [hf, hf'] at hs; simp at hs
  | some p' =>
    cases hf : findProduct inv pid with
    | none => rw [hf, hf'] at hs; simp at hs
    | some p =>
      rw [stockD_of_found hf] at hd
      rw [stockD_of_found hf'] at hd
      simp [stockOf, hf, hf', hd]

/-! ### Facts about the order table and the orchestrator's branches -/

theorem findOrder_storeOrder_self (orders : OrderTable) (oid : String)
    (o : Order) : findOrder (storeOrder orders oid o) oid = some o := by
  induction orders with
  | nil => simp [storeOrder, findOrder]
  | cons e rest ih =>
    obtain ⟨k, v⟩ := e
    by_cases hk : k = oid
    · subst hk; simp [storeOrder, findOrder]
    · simp [storeOrder, findOrder, hk, ih]

theorem orderTotal_acc (items : List OrderItem) :
    ∀ a : ℚ,
      items.foldl (fun acc item => acc + item.unitPrice * (item.quantity : ℚ)) a
        = a + specTotal items := by
  induction items with
  | nil => intro a; simp [specTotal]
  | cons item rest ih =>
    intro a
    simp only [List.foldl_cons, ih, specTotal, List.map_cons, List.sum_cons]
    ring

theorem orderTotal_eq_specTotal (items : List OrderItem) :
    orderTotal items = specTotal items := by
  simpa [orderTotal] using orderTotal_acc items 0

/-- The abort branch of `CreateOrder`: a failed reservation returns the
partially-reserved inventory untouched by any release, the order table
unchanged, and an error. -/
theorem createOrder_reserveFail {inv : Inventory} {orders : OrderTable}
    {orderID customerID : String} {items : List OrderItem}
    {paymentClient : PaymentRequest → Except String PaymentResponse}
    {tCreate tUpdate : Nat} {pid : String} {msg : Message}
    (hres : (reserveItems orderID inv items).2 = some (pid, msg)) :
    createOrder inv orders orderID customerID items paymentClient
        tCreate tUpdate
      = { inv := (reserveItems orderID inv items).1, orders := orders,
          result := .error (.reserveFailed pid msg) } := by
  unfold createOrder
  rcases hr : reserveItems orderID inv items with ⟨inv1, failOpt⟩
  rw [hr] at hres
  simp only at hres
  subst hres
  simp

/-- The compensation branch of `CreateOrder` for a payment transport error:
all reservations succeeded, the payment call errored, every line item is
released, the order table is unchanged and an error is returned. -/
theorem createOrder_paymentErr {inv : Inventory} {orders : OrderTable}
    {orderID customerID : String} {items : List OrderItem}
    {paymentClient : PaymentRequest → Except String PaymentResponse}
    {tCreate tUpdate : Nat} {e : String}
    (hres : (reserveItems orderID inv items).2 = none)
    (hpay : paymentClient
        { orderId := orderID, customerId := customerID,
          amount := orderTotal items, currency := "USD",
          paymentMethod := "credit_card" } = .error e) :
    createOrder inv orders orderID customerID items paymentClient
        tCreate tUpdate
      = { inv := releaseStockForOrder orderID
            (reserveItems orderID inv items).1 items,
          orders := orders,
          result := .error (.paymentProcessingFailed e) } := by
  unfold createOrder
  rcases hr : reserveItems orderID inv items with ⟨inv1, failOpt⟩
  rw [hr] at hres
  simp only at hres
  subst hres
  simp only [orderTotal] at hpay ⊢
  rw [hpay]

/-- The compensation branch of `CreateOrder` for a declined payment: all
reservations succeeded, the payment response has a status other than SUCCESS,
every line item is released, the order table is unchanged and an error is
returned. -/
theorem createOrder_paymentDeclined {inv : Inventory} {orders : OrderTable}
    {orderID customerID : String} {items : List OrderItem}
    {paymentClient : PaymentRequest → Except String PaymentResponse}
    {tCreate tUpdate : Nat} {resp : PaymentResponse}
    (hres : (reserveItems orderID inv items).2 = none)
    (hpay : paymentClient
        { orderId := orderID, customerId := customerID,
          amount := orderTotal items, currency := "USD",
          paymentMethod := "credit_card" } = .ok resp)
    (hst : resp.status ≠ PaymentStatus.success) :
    createOrder inv orders orderID customerID items paymentClient
        tCreate tUpdate
      = { inv := releaseStockForOrder orderID
            (reserveItems orderID inv items).1 items,
          orders := orders,
          result := .error (.paymentFailed resp.message) } := by
  unfold createOrder
  rcases hr : reserveItems orderID inv items with ⟨inv1, failOpt⟩
  rw [hr] at hres
  simp only at hres
  subst hres
  simp only [orderTotal] at hpay ⊢
  rw [hpay]
  simp [hst]

/-- The success branch of `CreateOrder`: all reservations succeeded and the
payment response has status SUCCESS; the order is stored with status
PROCESSING and a refreshed `UpdatedAt`, the reserved inventory is kept, and
the order is returned. -/
theorem createOrder_success {inv : Inventory} {orders : OrderTable}
    {orderID customerID : String} {items : List OrderItem}
    {paymentClient : PaymentRequest → Except String PaymentResponse}
    {tCreate tUpdate : Nat} {resp : PaymentResponse}
    (hres : (reserveItems orderID inv items).2 = none)
    (hpay : paymentClient
        { orderId := orderID, customerId := customerID,
          amount := orderTotal items, currency := "USD",
          paymentMethod := "credit_card" } = .ok resp)
    (hst : resp.status = PaymentStatus.success) :
    createOrder inv orders orderID customerID items paymentClient
        tCreate tUpdate
      = { inv := (reserveItems orderID inv items).1,
          orders := storeOrder orders orderID
            { id := orderID, customerId := customerID, items := items,
              totalAmount := orderTotal items, status := .processing,
              createdAt := tCreate, updatedAt := tUpdate },
          result := .ok
            { id := orderID, customerId := customerID, items := items,
              totalAmount := orderTotal items, status := .processing,
              createdAt := tCreate, updatedAt := tUpdate } } := by
  unfold createOrder
  rcases hr : reserveItems orderID inv items with ⟨inv1, failOpt⟩
  rw [hr] at hres
  simp only at hres
  subst hres
  simp only [orderTotal] at hpay ⊢
  rw [hpay]
  simp [hst]

/-- Every `.ok` result of `CreateOrder` comes from the success branch. -/
theorem createOrder_ok_inv {inv : Inventory} {orders : OrderTable}
    {orderID customerID : String} {items : List OrderItem}
    {paymentClient : PaymentRequest → Except String PaymentResponse}
    {tCreate tUpdate : Nat} {o : Order}
    (h : (createOrder inv orders orderID customerID items paymentClient
            tCreate tUpdate).result = .ok o) :
    (reserveItems orderID inv items).2 = none ∧
    o = { id := orderID, customerId := customerID, items := items,
          totalAmount := orderTotal items, status := .processing,
          createdAt := tCreate, updatedAt := tUpdate } ∧
    (createOrder inv orders orderID customerID items paymentClient
        tCreate tUpdate).orders = storeOrder orders orderID o ∧
    (createOrder inv orders orderID customerID items paymentClient
        tCreate tUpdate).inv = (reserveItems orderID inv items).1 := by
  rcases hr : (reserveItems orderID inv items).2 with _ | ⟨pid, msg⟩
  · rcases hpay : paymentClient
        { orderId := orderID, customerId := customerID,
          amount := orderTotal items, currency := "USD",
          paymentMethod := "credit_card" } with e | resp
    · rw [createOrder_paymentErr hr hpay] at h
      simp at h
    · by_cases hst : resp.status = PaymentStatus.success
      · rw [createOrder_success hr hpay hst] at h
        simp only [Except.ok.injEq] at h
        refine ⟨rfl, h.symm, ?_, ?_⟩
        · rw [createOrder_success hr hpay hst, ← h]
        · rw [createOrder_success hr hpay hst]
      · rw [createOrder_paymentDeclined hr hpay hst] at h
        simp at h
  · rw [createOrder_reserveFail hr] at h
    simp at h

/-- Reserving an appended list first walks the prefix; when every prefix
reservation succeeds, the loop continues on the rest from the prefix's
final inventory. -/
theorem reserveItems_append (oid : String) (pre rest : List OrderItem) :
    ∀ inv, (reserveItems oid inv pre).2 = none →
      reserveItems oid inv (pre ++ rest)
        = reserveItems oid (reserveItems oid inv pre).1 rest := by
  induction pre with
  | nil => intro inv _; rfl
  | cons item tl ih =>
    intro inv h
    simp only [reserveItems, List.cons_append] at h ⊢
    cases hs : (reserveStock inv item.productId item.quantity oid).2.success with
    | true =>
      simp only [hs, if_true] at h ⊢
      exact ih _ h
    | false =>
      simp only [hs, Bool.false_eq_true, if_false] at h
      simp at h

/-- A failing head reservation stops the loop at once: the inventory is
returned as it was and the failing item is reported. -/
theorem reserveItems_cons_fail {oid : String} {inv : Inventory}
    {item : OrderItem} {rest : List OrderItem}
    (h : (reserveStock inv item.productId item.quantity oid).2.success
        = false) :
    reserveItems oid inv (item :: rest)
      = (inv, some (item.productId,
          (reserveStock inv item.productId item.quantity oid).2.message)) := by
  simp only [reserveItems]
  rw [if_neg (by simp [h]), reserveStock_fail_state h]

/-- Releasing every line item after all of them were reserved restores
each product's stock to its pre-call value. -/
theorem release_after_reserve_restores (oid : String) (inv : Inventory)
    (items : List OrderItem) (hrange : stocksInRange inv)
    (hres : (reserveItems oid inv items).2 = none) (pid : String) :
    stockOf (releaseStockForOrder oid (reserveItems oid inv items).1 items) pid
      = stockOf inv pid := by
  have hpres0 : ∀ it ∈ items, (findProduct inv it.productId).isSome :=
    reserveItems_none_present oid items inv hres
  have hpres1 : ∀ it ∈ items,
      (findProduct (reserveItems oid inv items).1 it.productId).isSome := by
    intro it hit
    rw [reserveItems_isSome]
    exact hpres0 it hit
  have h1 := reserveItems_none_stockD oid items inv hres pid
  have h2 := releaseStockForOrder_stockD oid items
    (reserveItems oid inv items).1 hpres1 pid
  have hmod : Int.ModEq 4294967296
      (stockD (releaseStockForOrder oid (reserveItems oid inv items).1 items)
        pid)
      (stockD inv pid) := by
    have hc := h2.trans (h1.add_right (sumQ pid items))
    have harith : stockD inv pid - sumQ pid items + sumQ pid items
        = stockD inv pid := by ring
    rwa [harith] at hc
  have hrange1 : stocksInRange (reserveItems oid inv items).1 :=
    stocksInRange_reserveItems oid items inv hrange
  have hrange2 : stocksInRange
      (releaseStockForOrder oid (reserveItems oid inv items).1 items) :=
    stocksInRange_releaseStockForOrder oid items _ hrange1
  have hD := int32_eq_of_modEq hmod
    (stockD_range hrange2 pid).1 (stockD_range hrange2 pid).2
    (stockD_range hrange pid).1 (stockD_range hrange pid).2
  have hS : (findProduct
      (releaseStockForOrder oid (reserveItems oid inv items).1 items)
        pid).isSome
      = (findProduct inv pid).isSome := by
    rw [releaseStockForOrder_isSome, reserveItems_isSome]
  exact stockOf_eq_of_isSome_stockD hS hD

/-- One ledger request keeps every stock non-negative and within the `int32`
range, provided its quantity is a positive `int32` and, for a release, the
addition does not overflow. -/
theorem stocksGood_applyInvOp {inv : Inventory} {op : InvOp}
    (hg : ∀ e ∈ inv, 0 ≤ e.2.stockQuantity ∧ e.2.stockQuantity < 2147483648)
    (hq : posInt32 op = true) (hnof : stepNoOverflow inv op = true) :
    ∀ e ∈ applyInvOp inv op,
      0 ≤ e.2.stockQuantity ∧ e.2.stockQuantity < 2147483648 := by
  simp only [posInt32, Bool.and_eq_true, decide_eq_true_eq] at hq
  cases op with
  | reserve pid q oid =>
    simp only [opQuantity] at hq
    simp only [applyInvOp]
    cases hs : (reserveStock inv pid q oid).2.success with
    | false => rw [reserveStock_fail_state hs]; exact hg
    | true =>
      obtain ⟨p, hp, hge, hstate⟩ := reserveStock_success_effect hs
      rw [hstate]
      intro e he
      rcases mem_setStock he with he' | he'
      · exact hg e he'
      · rw [he']
        have hpb : 0 ≤ p.stockQuantity ∧ p.stockQuantity < 2147483648 :=
          hg (pid, p) (findProduct_mem hp)
        rw [wrap32_eq_self (by omega) (by omega)]
        omega
  | release pid q oid =>
    simp only [opQuantity] at hq
    simp only [applyInvOp]
    cases hf : findProduct inv pid with
    | none => rw [releaseStock_not_found_state hf]; exact hg
    | some p =>
      rw [releaseStock_found_state hf]
      intro e he
      rcases mem_setStock he with he' | he'
      · exact hg e he'
      · rw [he']
        have hpb : 0 ≤ p.stockQuantity ∧ p.stockQuantity < 2147483648 :=
          hg (pid, p) (findProduct_mem hf)
        have hbound : p.stockQuantity + q ≤ 2147483647 := by
          simp only [stepNoOverflow, hf, decide_eq_true_eq] at hnof
          exact hnof
        rw [wrap32_eq_self (by omega) (by omega)]
        omega

/-! ### Claim theorems -/

/-- Claim C3: for every call `Reserve(productId, quantity, orderId)` with a
positive `int32` quantity, on a ledger whose stocks are in the `int32` range:
if the product is absent the result is `success=false` with a not-found
message, no error, and an unchanged ledger; if it exists but
`availableQuantity < quantity` the result is `success=false` with a message
carrying both the available and the requested figure and the ledger is
unchanged; otherwise `availableQuantity` is decremented by `quantity` and the
result is `success=true` with `reservedQuantity = quantity`. -/
theorem reserveStock_spec (inv : Inventory) (pid oid : String) (q : Int)
    (hrange : stocksInRange inv) (hq : 0 < q) :
    (findProduct inv pid = none →
      reserveStock inv pid q oid
        = (inv, { success := false, message := .productNotFound pid,
                  reservedQuantity := 0 })) ∧
    (∀ p, findProduct inv pid = some p → p.stockQuantity < q →
      reserveStock inv pid q oid
        = (inv, { success := false,
                  message := .insufficientStock p.stockQuantity q,
                  reservedQuantity := 0 })) ∧
    (∀ p, findProduct inv pid = some p → q ≤ p.stockQuantity →
      (reserveStock inv pid q oid).2
        = { success := true, message := .stockReserved,
            reservedQuantity := q } ∧
      stockOf (reserveStock inv pid q oid).1 pid
        = some (p.stockQuantity - q)) := by
  refine ⟨?_, ?_, ?_⟩
  · intro hf; unfold reserveStock; simp only [hf]
  · intro p hf hlt; unfold reserveStock; simp only [hf, if_pos hlt]
  · intro p hf hge
    have hnlt : ¬ p.stockQuantity < q := by omega
    have hub : p.stockQuantity < 2147483648 :=
      (hrange (pid, p) (findProduct_mem hf)).2
    have hwrap : wrap32 (p.stockQuantity - q) = p.stockQuantity - q :=
      wrap32_eq_self (by omega) (by omega)
    constructor
    · unfold reserveStock; simp only [hf, if_neg hnlt]
    · unfold reserveStock
      simp only [hf, if_neg hnlt]
      simp [stockOf, findProduct_setStock_self hf, hwrap]

/-- Witness for C3: Scenario A — product-1 has stock 50, reserving 2 leaves
stock 48. -/
theorem reserveStock_spec_witness :
    stocksInRange initialProducts ∧ (0 : Int) < 2 ∧
      stockOf (reserveStock initialProducts "product-1" 2 "o1").1 "product-1"
        = some (50 - 2) :=
  ⟨by decide, by decide,
    ((reserveStock_spec initialProducts "product-1" "o1" 2 (by decide)
        (by decide)).2.2
      { id := "product-1", name := "Laptop", stockQuantity := 50,
        price := mkRat 99999 100 }
      (by decide) (by decide)).2⟩

/-- Claim C9: every `ProcessPayment` call that completes returns a response
through the ok channel — the error channel is unreachable — whose status is
SUCCESS or FAILED; a declined payment (the coin landing on the 10% side) is
reported via the status field with the declined message and the generated
payment and transaction identifiers. -/
theorem processPayment_total (coin : Bool) (paymentID transactionID : String)
    (req : PaymentRequest) :
    ∃ resp, processPayment coin paymentID transactionID req = .ok resp ∧
      (resp.status = .success ∨ resp.status = .failed) ∧
      (coin = false →
        resp = { paymentId := paymentID, status := .failed,
                 message := "Payment declined by bank",
                 transactionId := transactionID }) := by
  unfold processPayment
  cases coin with
  | false => exact ⟨_, rfl, Or.inr rfl, fun _ => rfl⟩
  | true => exact ⟨_, rfl, Or.inl rfl, fun h => by simp at h⟩

/-- Witness for C9 at a concrete declined call. -/
theorem processPayment_total_witness :
    ∃ resp, processPayment false "pay-1" "txn-1"
        { orderId := "o1", customerId := "c1", amount := 10,
          currency := "USD", paymentMethod := "credit_card" } = .ok resp ∧
      (resp.status = .success ∨ resp.status = .failed) ∧
      (false = false →
        resp = { paymentId := "pay-1", status := .failed,
                 message := "Payment declined by bank",
                 transactionId := "txn-1" }) :=
  processPayment_total false "pay-1" "txn-1"
    { orderId := "o1", customerId := "c1", amount := 10,
      currency := "USD", paymentMethod := "credit_card" }

/-- Counterexample to claim C7 as stated: `Release` does not always increment
`availableQuantity` by `quantity`. With the positive `int32` quantity
2147483647, releasing product-2 (stock 100) wraps the `int32` counter: the
stock becomes -2147483549, not 100 + 2147483647, even though the call still
reports `success=true`. -/
theorem releaseStock_increment_counterexample :
    (releaseStock initialProducts "product-2" 2147483647 "o").2.success = true ∧
    stockOf (releaseStock initialProducts "product-2" 2147483647 "o").1
        "product-2" = some (-2147483549) ∧
    (-2147483549 : Int) ≠ 100 + 2147483647 := by
  refine ⟨by decide, by decide, by decide⟩

/-- Claim C7 amended: for every `Release(productId, quantity, orderId)` on an
existing product, `availableQuantity` is unconditionally set to the
`int32`-wrapped sum `availableQuantity + quantity` — equal to
`availableQuantity + quantity` whenever that sum fits in `int32` — and
`success=true` is returned, with no clamping to any prior reserved amount;
if the product is absent, `success=false` is returned and nothing changes. -/
theorem releaseStock_spec_amended (inv : Inventory) (pid oid : String)
    (q : Int) :
    (findProduct inv pid = none →
      releaseStock inv pid q oid
        = (inv, { success := false, message := .productNotFound pid })) ∧
    (∀ p, findProduct inv pid = some p →
      (releaseStock inv pid q oid).2
        = { success := true, message := .stockReleased } ∧
      stockOf (releaseStock inv pid q oid).1 pid
        = some (wrap32 (p.stockQuantity + q)) ∧
      (-2147483648 ≤ p.stockQuantity + q → p.stockQuantity + q < 2147483648 →
        stockOf (releaseStock inv pid q oid).1 pid
          = some (p.stockQuantity + q))) := by
  constructor
  · intro hf; unfold releaseStock; simp only [hf]
  · intro p hf
    refine ⟨?_, ?_, ?_⟩
    · unfold releaseStock; simp only [hf]
    · unfold releaseStock
      simp only [hf]
      simp [stockOf, findProduct_setStock_self hf]
    · intro h1 h2
      unfold releaseStock
      simp only [hf]
      simp [stockOf, findProduct_setStock_self hf, wrap32_eq_self h1 h2]

/-- Witness for the amended C7: releasing 5 on product-1 (stock 50, no prior
reservation needed) reports success and sets the stock to 55. -/
theorem releaseStock_spec_amended_witness :
    (releaseStock initialProducts "product-1" 5 "o").2
        = { success := true, message := .stockReleased } ∧
    stockOf (releaseStock initialProducts "product-1" 5 "o").1 "product-1"
        = some (50 + 5) :=
  ⟨((releaseStock_spec_amended initialProducts "product-1" "o" 5).2
      { id := "product-1", name := "Laptop", stockQuantity := 50,
        price := mkRat 99999 100 } (by decide)).1,
   ((releaseStock_spec_amended initialProducts "product-1" "o" 5).2
      { id := "product-1", name := "Laptop", stockQuantity := 50,
        price := mkRat 99999 100 } (by decide)).2.2 (by decide) (by decide)⟩

/-- Counterexample to claim C10 as stated: for the existing product-3
(stock 75) and the non-positive `int32` quantity q = -2147483647, the call
does return `success=true`, but the stock is not set to
`availableQuantity - q` (= 2147483722) and does not increase: the `int32`
subtraction wraps to -2147483574. -/
theorem reserveStock_nonpositive_counterexample :
    (reserveStock initialProducts "product-3" (-2147483647) "o").2.success
        = true ∧
    stockOf (reserveStock initialProducts "product-3" (-2147483647) "o").1
        "product-3" = some (-2147483574) ∧
    (-2147483574 : Int) ≠ 75 - (-2147483647) ∧
    ¬ (75 : Int) ≤ -2147483574 := by
  refine ⟨by decide, by decide, by decide, by decide⟩

/-- Claim C10 amended: the `quantity > 0` precondition of `ReserveStock` is
not enforced — for every existing product with `availableQuantity ≥ 0` and
every quantity `q ≤ 0` whose subtraction does not overflow `int32`
(`availableQuantity - q ≤ 2147483647`), the call returns `success=true` (the
check `availableQuantity < q` never triggers) and sets `availableQuantity`
to `availableQuantity - q`, so a negative `q` silently increases stock
through the reserve operation; when the subtraction overflows, the `int32`
wrap stores `wrap32 (availableQuantity - q)` instead. -/
theorem reserveStock_nonpositive_amended (inv : Inventory) (pid oid : String)
    (q : Int) (p : Product) (hf : findProduct inv pid = some p)
    (h0 : 0 ≤ p.stockQuantity) (hq : q ≤ 0)
    (hnof : p.stockQuantity - q ≤ 2147483647) :
    (reserveStock inv pid q oid).2.success = true ∧
    stockOf (reserveStock inv pid q oid).1 pid
      = some (p.stockQuantity - q) ∧
    p.stockQuantity ≤ p.stockQuantity - q := by
  have hnlt : ¬ p.stockQuantity < q := by omega
  have hwrap : wrap32 (p.stockQuantity - q) = p.stockQuantity - q :=
    wrap32_eq_self (by omega) (by omega)
  refine ⟨?_, ?_, by omega⟩
  · unfold reserveStock; simp only [hf, if_neg hnlt]
  · unfold reserveStock
    simp only [hf, if_neg hnlt]
    simp [stockOf, findProduct_setStock_self hf, hwrap]

/-- Witness for the amended C10: reserving q = -5 on product-1 (stock 50)
reports success and raises the stock to 55. -/
theorem reserveStock_nonpositive_amended_witness :
    (reserveStock initialProducts "product-1" (-5) "o").2.success = true ∧
    stockOf (reserveStock initialProducts "product-1" (-5) "o").1 "product-1"
      = some (50 - (-5)) ∧
    (50 : Int) ≤ 50 - (-5) := by
  have h := reserveStock_nonpositive_amended initialProducts "product-1" "o"
    (-5) { id := "product-1", name := "Laptop", stockQuantity := 50,
           price := mkRat 99999 100 } (by decide) (by decide) (by decide) (by decide)
  exact h

/-- Claim C5: for every successful `CreateOrder` call, the persisted Order's
`totalAmount` equals the sum over the supplied line items of
`quantity × unitPrice`, computed once at creation; it is never recomputed —
the only later mutation of a stored order, `UpdateOrderStatus`, keeps
`totalAmount` exactly as stored. -/
theorem createOrder_totalAmount (inv : Inventory) (orders : OrderTable)
    (orderID customerID : String) (items : List OrderItem)
    (paymentClient : PaymentRequest → Except String PaymentResponse)
    (tCreate tUpdate : Nat) (o : Order)
    (h : (createOrder inv orders orderID customerID items paymentClient
            tCreate tUpdate).result = .ok o) :
    o.totalAmount = specTotal items ∧
    findOrder (createOrder inv orders orderID customerID items paymentClient
        tCreate tUpdate).orders orderID = some o ∧
    (∀ (orders' : OrderTable) (oid : String) (st : OrderStatus) (now : Nat)
        (o' : Order),
      (updateOrderStatus orders' oid st now).2 = .ok o' →
      ∃ o₀, findOrder orders' oid = some o₀ ∧ o'.totalAmount = o₀.totalAmount) := by
  obtain ⟨hres, ho, horders, hinv⟩ := createOrder_ok_inv h
  refine ⟨?_, ?_, ?_⟩
  · rw [ho]
    exact orderTotal_eq_specTotal items
  · rw [horders]
    exact findOrder_storeOrder_self orders orderID o
  · intro orders' oid st now o' h'
    unfold updateOrderStatus at h'
    cases hf : findOrder orders' oid with
    | none => rw [hf] at h'; simp at h'
    | some o₀ =>
      rw [hf] at h'
      simp only [Except.ok.injEq] at h'
      exact ⟨o₀, rfl, by rw [← h']⟩

/-- Witness for C5: Scenario D's one-item order, with a succeeding charge,
returns an order whose total equals the spec-side sum. -/
theorem createOrder_totalAmount_witness :
    ∃ o, (createOrder initialProducts [] "order-1" "cust-1" sampleItems
            paySuccess 0 1).result = .ok o ∧
      o.totalAmount = specTotal sampleItems := by
  have h : (createOrder initialProducts [] "order-1" "cust-1" sampleItems
      paySuccess 0 1).result
        = .ok { id := "order-1", customerId := "cust-1", items := sampleItems,
                totalAmount := orderTotal sampleItems, status := .processing,
                createdAt := 0, updatedAt := 1 } := by
    rw [createOrder_success (by decide) rfl rfl]
  exact ⟨_, h, (createOrder_totalAmount initialProducts [] "order-1" "cust-1"
    sampleItems paySuccess 0 1 _ h).1⟩

/-- Claim C6: for every `CreateOrder` call in which all reservations succeed
and the charge returns status SUCCESS, the Order is persisted into the order
table with status PROCESSING and a refreshed `updatedAt`, is returned to the
caller as the success result, and the reserved stock decrements are kept
(the final inventory is exactly the post-reservation inventory — nothing is
released). -/
theorem createOrder_success_spec (inv : Inventory) (orders : OrderTable)
    (orderID customerID : String) (items : List OrderItem)
    (paymentClient : PaymentRequest → Except String PaymentResponse)
    (tCreate tUpdate : Nat) (resp : PaymentResponse)
    (hres : (reserveItems orderID inv items).2 = none)
    (hpay : paymentClient
        { orderId := orderID, customerId := customerID,
          amount := orderTotal items, currency := "USD",
          paymentMethod := "credit_card" } = .ok resp)
    (hst : resp.status = PaymentStatus.success) :
    ∃ o, (createOrder inv orders orderID customerID items paymentClient
            tCreate tUpdate).result = .ok o ∧
      o.status = .processing ∧
      o.updatedAt = tUpdate ∧
      findOrder (createOrder inv orders orderID customerID items paymentClient
          tCreate tUpdate).orders orderID = some o ∧
      (createOrder inv orders orderID customerID items paymentClient
          tCreate tUpdate).inv = (reserveItems orderID inv items).1 := by
  rw [createOrder_success hres hpay hst]
  refine ⟨_, rfl, rfl, rfl, ?_, rfl⟩
  exact findOrder_storeOrder_self _ _ _

/-- Witness for C6: Scenario D — ordering two laptops with a succeeding
charge persists a PROCESSING order and keeps the stock at 48. -/
theorem createOrder_success_spec_witness :
    (reserveItems "order-1" initialProducts sampleItems).2 = none ∧
    (∃ o, (createOrder initialProducts [] "order-1" "cust-1" sampleItems
            paySuccess 0 1).result = .ok o ∧
      o.status = .processing ∧
      o.updatedAt = 1 ∧
      findOrder (createOrder initialProducts [] "order-1" "cust-1"
          sampleItems paySuccess 0 1).orders "order-1" = some o ∧
      (createOrder initialProducts [] "order-1" "cust-1" sampleItems
          paySuccess 0 1).inv
        = (reserveItems "order-1" initialProducts sampleItems).1) :=
  ⟨by decide,
   createOrder_success_spec initialProducts [] "order-1" "cust-1" sampleItems
     paySuccess 0 1
     { paymentId := "pay-1", status := .success,
       message := "Payment processed successfully", transactionId := "txn-1" }
     (by decide) rfl rfl⟩

/-- Claim C8: `UpdateOrderStatus` unconditionally overwrites the stored
order's status with the new status and refreshes `updatedAt`, for every
stored order and every status value — there is no state-machine validation,
so any status may be set from any status; for an unknown order id it returns
a not-found error and changes no order. -/
theorem updateOrderStatus_spec (orders : OrderTable) (oid : String)
    (st : OrderStatus) (now : Nat) :
    (findOrder orders oid = none →
      updateOrderStatus orders oid st now
        = (orders, .error (.orderNotFound oid))) ∧
    (∀ o, findOrder orders oid = some o →
      (updateOrderStatus orders oid st now).2
          = .ok { o with status := st, updatedAt := now } ∧
      findOrder (updateOrderStatus orders oid st now).1 oid
          = some { o with status := st, updatedAt := now }) := by
  constructor
  · intro hf; unfold updateOrderStatus; simp only [hf]
  · intro o hf
    unfold updateOrderStatus
    simp only [hf]
    exact ⟨trivial, findOrder_storeOrder_self _ _ _⟩

/-- Witness for C8: a COMPLETED order is moved back to PENDING (accepted,
Scenario E's permissiveness), and an unknown id yields a not-found error. -/
theorem updateOrderStatus_spec_witness :
    (findOrder ([] : OrderTable) "ghost" = none →
      updateOrderStatus ([] : OrderTable) "ghost" .processing 5
        = ([], .error (.orderNotFound "ghost"))) ∧
    ((updateOrderStatus
        [("order-1", { id := "order-1", customerId := "c1", items := [],
                       totalAmount := 0, status := .completed,
                       createdAt := 0, updatedAt := 3 })]
        "order-1" .pending 7).2
      = .ok { id := "order-1", customerId := "c1", items := [],
              totalAmount := 0, status := .pending,
              createdAt := 0, updatedAt := 7 }) :=
  ⟨(updateOrderStatus_spec ([] : OrderTable) "ghost" .processing 5).1,
   ((updateOrderStatus_spec
      [("order-1", { id := "order-1", customerId := "c1", items := [],
                     totalAmount := 0, status := .completed,
                     createdAt := 0, updatedAt := 3 })]
      "order-1" .pending 7).2
     { id := "order-1", customerId := "c1", items := [], totalAmount := 0,
       status := .completed, createdAt := 0, updatedAt := 3 }
     (by decide)).1⟩

/-- Counterexample to claim C1 as stated: when reservation of the second
line item fails (unknown product), `CreateOrder` returns an error and
persists nothing, but it does NOT release the already-reserved first item:
product-1's stock stays at 48, not its pre-call 50 — the claim's "releases
exactly the items 1..k-1" is false on the code. -/
theorem createOrder_reserveFail_counterexample :
    (createOrder initialProducts [] "order-1" "cust-1"
        (sampleItems ++
          [{ productId := "no-such-product", quantity := 1, unitPrice := 1 }])
        paySuccess 0 1).result
      = .error (.reserveFailed "no-such-product"
          (.productNotFound "no-such-product")) ∧
    stockOf initialProducts "product-1" = some 50 ∧
    stockOf (createOrder initialProducts [] "order-1" "cust-1"
        (sampleItems ++
          [{ productId := "no-such-product", quantity := 1, unitPrice := 1 }])
        paySuccess 0 1).inv "product-1" = some 48 ∧
    (48 : Int) ≠ 50 ∧
    (createOrder initialProducts [] "order-1" "cust-1"
        (sampleItems ++
          [{ productId := "no-such-product", quantity := 1, unitPrice := 1 }])
        paySuccess 0 1).orders = [] := by
  refine ⟨by decide, by decide, by decide, by decide, by decide⟩

/-- Claim C1 amended: if the reservation of the k-th line item fails
(`success=false` from the ledger), `CreateOrder` aborts immediately and
releases nothing: the resulting inventory is exactly the state after the
k-1 successful reservations (their decrements stay in place; items k..end
are never reserved), an error naming the failing product is returned, and
no Order is persisted. -/
theorem createOrder_reserveFail_spec (inv : Inventory) (orders : OrderTable)
    (orderID customerID : String) (pre post : List OrderItem)
    (bad : OrderItem)
    (paymentClient : PaymentRequest → Except String PaymentResponse)
    (tCreate tUpdate : Nat)
    (hpre : (reserveItems orderID inv pre).2 = none)
    (hbad : (reserveStock (reserveItems orderID inv pre).1 bad.productId
        bad.quantity orderID).2.success = false) :
    (∃ msg, (createOrder inv orders orderID customerID (pre ++ bad :: post)
        paymentClient tCreate tUpdate).result
          = .error (.reserveFailed bad.productId msg)) ∧
    (createOrder inv orders orderID customerID (pre ++ bad :: post)
        paymentClient tCreate tUpdate).orders = orders ∧
    (createOrder inv orders orderID customerID (pre ++ bad :: post)
        paymentClient tCreate tUpdate).inv
      = (reserveItems orderID inv pre).1 ∧
    (∀ pid, Int.ModEq 4294967296
      (stockD (createOrder inv orders orderID customerID (pre ++ bad :: post)
          paymentClient tCreate tUpdate).inv pid)
      (stockD inv pid - sumQ pid pre)) := by
  have happ := reserveItems_append orderID pre (bad :: post) inv hpre
  have hcons := @reserveItems_cons_fail orderID
    ((reserveItems orderID inv pre).1) bad post hbad
  have hres2 : (reserveItems orderID inv (pre ++ bad :: post)).2
      = some (bad.productId,
          (reserveStock (reserveItems orderID inv pre).1 bad.productId
            bad.quantity orderID).2.message) := by
    rw [happ, hcons]
  have hinv1 : (reserveItems orderID inv (pre ++ bad :: post)).1
      = (reserveItems orderID inv pre).1 := by
    rw [happ, hcons]
  have hmain := @createOrder_reserveFail inv orders orderID customerID
    (pre ++ bad :: post) paymentClient tCreate tUpdate bad.productId _ hres2
  refine ⟨⟨_, by rw [hmain]⟩, by rw [hmain], by rw [hmain]; exact hinv1, ?_⟩
  intro pid
  rw [hmain]
  simp only
  rw [hinv1]
  exact reserveItems_none_stockD orderID pre inv hpre pid

/-- Witness for the amended C1: reserving two laptops succeeds, the unknown
second product fails, the laptop decrement stays, nothing is persisted. -/
theorem createOrder_reserveFail_spec_witness :
    (reserveItems "order-1" initialProducts sampleItems).2 = none ∧
    (reserveStock (reserveItems "order-1" initialProducts sampleItems).1
        "no-such-product" 1 "order-1").2.success = false ∧
    ((∃ msg, (createOrder initialProducts [] "order-1" "cust-1"
        (sampleItems ++
          { productId := "no-such-product", quantity := 1,
            unitPrice := 1 } :: [])
        paySuccess 0 1).result
          = .error (.reserveFailed
              ({ productId := "no-such-product", quantity := 1,
                 unitPrice := 1 } : OrderItem).productId msg)) ∧
      (createOrder initialProducts [] "order-1" "cust-1"
          (sampleItems ++
            { productId := "no-such-product", quantity := 1,
              unitPrice := 1 } :: [])
          paySuccess 0 1).orders = [] ∧
      (createOrder initialProducts [] "order-1" "cust-1"
          (sampleItems ++
            { productId := "no-such-product", quantity := 1,
              unitPrice := 1 } :: [])
          paySuccess 0 1).inv
        = (reserveItems "order-1" initialProducts sampleItems).1 ∧
      (∀ pid, Int.ModEq 4294967296
        (stockD (createOrder initialProducts [] "order-1" "cust-1"
            (sampleItems ++
              { productId := "no-such-product", quantity := 1,
                unitPrice := 1 } :: [])
            paySuccess 0 1).inv pid)
        (stockD initialProducts pid - sumQ pid sampleItems))) :=
  ⟨by decide, by decide,
   createOrder_reserveFail_spec initialProducts [] "order-1" "cust-1"
     sampleItems []
     { productId := "no-such-product", quantity := 1, unitPrice := 1 }
     paySuccess 0 1 (by decide) (by decide)⟩

/-- Claim C2: if all reservations succeed and the charge call then errors or
returns a status other than SUCCESS, `CreateOrder` releases every line
item's reserved quantity back to the ledger — every product's stock returns
exactly to its pre-call value — returns an error, and persists no Order. -/
theorem createOrder_paymentFailure_spec (inv : Inventory)
    (orders : OrderTable) (orderID customerID : String)
    (items : List OrderItem)
    (paymentClient : PaymentRequest → Except String PaymentResponse)
    (tCreate tUpdate : Nat)
    (hrange : stocksInRange inv)
    (hres : (reserveItems orderID inv items).2 = none)
    (hpay : ∀ resp, paymentClient
        { orderId := orderID, customerId := customerID,
          amount := orderTotal items, currency := "USD",
          paymentMethod := "credit_card" } = .ok resp →
        resp.status ≠ PaymentStatus.success) :
    (∃ e, (createOrder inv orders orderID customerID items paymentClient
        tCreate tUpdate).result = .error e) ∧
    (createOrder inv orders orderID customerID items paymentClient
        tCreate tUpdate).orders = orders ∧
    (∀ pid, stockOf (createOrder inv orders orderID customerID items
        paymentClient tCreate tUpdate).inv pid = stockOf inv pid) := by
  rcases hp : paymentClient
      { orderId := orderID, customerId := customerID,
        amount := orderTotal items, currency := "USD",
        paymentMethod := "credit_card" } with e | resp
  · rw [createOrder_paymentErr hres hp]
    exact ⟨⟨_, rfl⟩, rfl,
      fun pid => release_after_reserve_restores orderID inv items hrange
        hres pid⟩
  · rw [createOrder_paymentDeclined hres hp (hpay resp hp)]
    exact ⟨⟨_, rfl⟩, rfl,
      fun pid => release_after_reserve_restores orderID inv items hrange
        hres pid⟩

/-- Witness for C2: Scenario C — a two-item order with a declining charge
returns an error, persists nothing, and both stocks return to 50 and 100. -/
theorem createOrder_paymentFailure_spec_witness :
    stocksInRange initialProducts ∧
    (reserveItems "order-1" initialProducts sampleItemsTwo).2 = none ∧
    ((∃ e, (createOrder initialProducts [] "order-1" "cust-1" sampleItemsTwo
        payDeclined 0 1).result = .error e) ∧
      (createOrder initialProducts [] "order-1" "cust-1" sampleItemsTwo
          payDeclined 0 1).orders = [] ∧
      (∀ pid, stockOf (createOrder initialProducts [] "order-1" "cust-1"
          sampleItemsTwo payDeclined 0 1).inv pid
        = stockOf initialProducts pid)) :=
  ⟨by decide, by decide,
   createOrder_paymentFailure_spec initialProducts [] "order-1" "cust-1"
     sampleItemsTwo payDeclined 0 1 (by decide) (by decide)
     (fun resp h => by
        rw [← Except.ok.inj h]
        decide)⟩

/-- Counterexample to claim C4 as stated: starting from the non-negative
initial stocks, a single `Release` with the positive `int32` quantity
2147483647 drives product-1's counter negative — the Go `int32` addition
wraps — so `availableQuantity ≥ 0` does not survive every positive-quantity
Reserve/Release sequence. -/
theorem stock_nonneg_counterexample :
    stocksNonneg initialProducts ∧
    posInt32 (.release "product-1" 2147483647 "o1") = true ∧
    ¬ stocksNonneg (runInvOps initialProducts
        [.release "product-1" 2147483647 "o1"]) := by
  refine ⟨by decide, by decide, by decide⟩

/-- Claim C4 amended: for every sequence of Reserve and Release operations
whose quantities are positive `int32` values, starting from stocks that are
non-negative and within the `int32` range, every product's
`availableQuantity` stays non-negative after every operation provided no
release overflows the `int32` counter (keeps stock ≤ 2147483647); without
that proviso the wrap of an oversized release can drive a stock negative. -/
theorem stock_nonneg_invariant (ops : List InvOp) :
    ∀ inv : Inventory,
      (∀ e ∈ inv, 0 ≤ e.2.stockQuantity ∧ e.2.stockQuantity < 2147483648) →
      (∀ op ∈ ops, posInt32 op = true) →
      runNoOverflow inv ops = true →
      stocksNonneg (runInvOps inv ops) := by
  induction ops with
  | nil => intro inv hg _ _ e he; exact (hg e he).1
  | cons op rest ih =>
    intro inv hg hpos hnof
    simp only [runNoOverflow, Bool.and_eq_true] at hnof
    simp only [runInvOps, List.foldl_cons]
    exact ih (applyInvOp inv op)
      (stocksGood_applyInvOp hg (hpos op (List.mem_cons_self _ _)) hnof.1)
      (fun o ho => hpos o (List.mem_cons_of_mem _ ho)) hnof.2

/-- Witness for the amended C4: a reserve of 2 followed by a release of 2 on
product-1 keeps all stocks non-negative. -/
theorem stock_nonneg_invariant_witness :
    (∀ e ∈ initialProducts,
      0 ≤ e.2.stockQuantity ∧ e.2.stockQuantity < 2147483648) ∧
    (∀ op ∈ [InvOp.reserve "product-1" 2 "o1",
             InvOp.release "product-1" 2 "o1"], posInt32 op = true) ∧
    runNoOverflow initialProducts
      [InvOp.reserve "product-1" 2 "o1",
       InvOp.release "product-1" 2 "o1"] = true ∧
    stocksNonneg (runInvOps initialProducts
      [InvOp.reserve "product-1" 2 "o1",
       InvOp.release "product-1" 2 "o1"]) :=
  ⟨by decide, by decide, by decide,
   stock_nonneg_invariant
     [InvOp.reserve "product-1" 2 "o1", InvOp.release "product-1" 2 "o1"]
     initialProducts (by decide) (by decide) (by decide)⟩

end OrderProcessing
